import Mathlib

/-!
# Verification of the Aircraft_Aerodynamics potential-flow core

Shallow embedding of `src/flows.py` and `src/flow_field.py`: canonical
potential-flow primitives (uniform flow, vortex, source/sink, doublet), the
flow-field superposition engine, the cylinder boundary-condition solver
(`FlowField.add_cylinder`), and the explicit-Euler streamline integrator
(`FlowField._stream_line`).  Python floats are modelled as real numbers;
`numpy` scalar functions (`sqrt`, `sin`, `cos`, `log`, `arctan2`) become the
corresponding real functions.  A Python method that raises an exception while
having already mutated its object is modelled by an `Except` result whose
error value carries the mutated state together with the exception message.
-/

open Classical

noncomputable section

namespace Aerodynamics

/-- Embeds `numpy.arctan2 y x`: the angle of the point `(x, y)`, realised as the
complex argument of `x + y*I` (both lie in `(-π, π]` and agree with the
two-argument arctangent away from floating-point signed zeros). -/
def arctan2 (y x : ℝ) : ℝ := Complex.arg ⟨x, y⟩

/-- Embeds `BaseFlow._to_polar_coordinates` (flows.py lines 82-95):
`r = sqrt(x² + y²)`, `theta = arctan2(y, x)`. -/
def to_polar_coordinates (x y : ℝ) : ℝ × ℝ :=
  (Real.sqrt (x ^ 2 + y ^ 2), arctan2 y x)

set_option linter.unusedVariables false in
/-- Embeds `BaseFlow._to_cartesian_velocity` (flows.py lines 97-114):
`u = u_r·cosθ − u_θ·sinθ`, `v = u_r·sinθ + u_θ·cosθ`; the `r` parameter is
taken (and ignored) exactly as in the Python signature. -/
def to_cartesian_velocity (u_r u_theta r theta : ℝ) : ℝ × ℝ :=
  (u_r * Real.cos theta - u_theta * Real.sin theta,
   u_r * Real.sin theta + u_theta * Real.cos theta)

/-- Embeds `BaseFlow._to_radians` (flows.py lines 116-124). -/
def to_radians (angle_deg : ℝ) : ℝ := angle_deg * Real.pi / 180

/-- The canonical flow primitives of `flows.py`.  A `UniformFlow` stores its
freestream speed and its angle in radians (its origin is fixed at `(0, 0)` by
`UniformFlow.__init__`); the other three variants store their origin
`(x_0, y_0)` and their strength. -/
inductive Flow : Type where
  | uniform (freestream_velocity angle : ℝ)
  | vortex (x_0 y_0 strength : ℝ)
  | sourceSink (x_0 y_0 strength : ℝ)
  | doublet (x_0 y_0 strength : ℝ)

namespace Flow

/-- The `x_0` attribute set by `BaseFlow.__init__` (`0` for `UniformFlow`). -/
def x_0 : Flow → ℝ
  | .uniform _ _ => 0
  | .vortex x _ _ => x
  | .sourceSink x _ _ => x
  | .doublet x _ _ => x

/-- The `y_0` attribute set by `BaseFlow.__init__` (`0` for `UniformFlow`). -/
def y_0 : Flow → ℝ
  | .uniform _ _ => 0
  | .vortex _ y _ => y
  | .sourceSink _ y _ => y
  | .doublet _ y _ => y

/-- The `freestream_velocity` attribute (only a `UniformFlow` has one; the
embedding totalises the accessor with `0` on the other variants, which never
reach it in the modelled code paths). -/
def freestream_velocity : Flow → ℝ
  | .uniform v _ => v
  | _ => 0

/-- Embeds the check `isinstance(flow, UniformFlow)`. -/
def isUniform : Flow → Bool
  | .uniform _ _ => true
  | _ => false

/-- Embeds `BaseFlow._is_center` (flows.py lines 136-150): whether the evaluation
point coincides exactly with the flow's own origin. -/
def is_center (f : Flow) (x y : ℝ) : Prop := x = f.x_0 ∧ y = f.y_0

/-- Embeds `stream_function` of each variant (flows.py lines 187-190, 222-232,
280-290, 341-351).  The singular variants return the zero sentinel at their
own center; otherwise they transform to local coordinates, pass to polar
coordinates, and evaluate their expression. -/
def stream_function : Flow → ℝ → ℝ → ℝ
  | .uniform v α, x, y =>
      v * ((0 + y) * Real.cos α - (0 + x) * Real.sin α)
  | .vortex x0 y0 s, x, y =>
      if x = x0 ∧ y = y0 then 0
      else
        let p := to_polar_coordinates (x - x0) (y - y0);
        -s * Real.log p.1 / 2 / Real.pi
  | .sourceSink x0 y0 s, x, y =>
      if x = x0 ∧ y = y0 then 0
      else
        let p := to_polar_coordinates (x - x0) (y - y0)
        s * p.2 / 2 / Real.pi
  | .doublet x0 y0 s, x, y =>
      if x = x0 ∧ y = y0 then 0
      else
        let p := to_polar_coordinates (x - x0) (y - y0);
        -s * Real.sin p.2 / 2 / Real.pi / p.1

/-- Embeds `potential_function` of each variant (flows.py lines 192-195, 234-244,
292-302, 353-363). -/
def potential_function : Flow → ℝ → ℝ → ℝ
  | .uniform v α, x, y =>
      v * ((0 + x) * Real.cos α + (0 + y) * Real.sin α)
  | .vortex x0 y0 s, x, y =>
      if x = x0 ∧ y = y0 then 0
      else
        let p := to_polar_coordinates (x - x0) (y - y0)
        s * p.2 / 2 / Real.pi
  | .sourceSink x0 y0 s, x, y =>
      if x = x0 ∧ y = y0 then 0
      else
        let p := to_polar_coordinates (x - x0) (y - y0)
        s * Real.log p.1 / 2 / Real.pi
  | .doublet x0 y0 s, x, y =>
      if x = x0 ∧ y = y0 then 0
      else
        let p := to_polar_coordinates (x - x0) (y - y0)
        s * Real.cos p.2 / 2 / Real.pi / p.1

/-- Embeds `velocity` of each variant (flows.py lines 197-201, 246-259, 304-320,
365-378): the singular variants return `(0, 0)` at their own center and
otherwise convert their polar velocity components to cartesian ones. -/
def velocity : Flow → ℝ → ℝ → ℝ × ℝ
  | .uniform v α, _, _ =>
      (v * Real.cos α, v * Real.sin α)
  | .vortex x0 y0 s, x, y =>
      if x = x0 ∧ y = y0 then (0, 0)
      else
        let p := to_polar_coordinates (x - x0) (y - y0)
        to_cartesian_velocity 0 (s / 2 / Real.pi / p.1) p.1 p.2
  | .sourceSink x0 y0 s, x, y =>
      if x = x0 ∧ y = y0 then (0, 0)
      else
        let p := to_polar_coordinates (x - x0) (y - y0)
        to_cartesian_velocity (s / 2 / Real.pi / p.1) 0 p.1 p.2
  | .doublet x0 y0 s, x, y =>
      if x = x0 ∧ y = y0 then (0, 0)
      else
        let p := to_polar_coordinates (x - x0) (y - y0)
        to_cartesian_velocity (s * Real.cos p.2 / p.1 ^ 2)
          (s * Real.sin p.2 / p.1 ^ 3) p.1 p.2

/-- Embeds `BaseFlow.absolute_velocity` (flows.py lines 58-68). -/
def absolute_velocity (f : Flow) (x y : ℝ) : ℝ :=
  Real.sqrt ((f.velocity x y).1 ^ 2 + (f.velocity x y).2 ^ 2)

/-- Modelled from the spec: `velocity_x` is invoked on flow primitives by
`FlowField.add_cylinder` and `FlowField._get_scalar_field` but is not defined
anywhere under `src/`; per the spec's velocity table it is the x-component of
`velocity`. -/
def velocity_x (f : Flow) (x y : ℝ) : ℝ := (f.velocity x y).1

/-- Modelled from the spec: `velocity_y` is invoked on flow primitives by
`FlowField.add_cylinder` but is not defined anywhere under `src/`; per the
spec's velocity table it is the y-component of `velocity`. -/
def velocity_y (f : Flow) (x y : ℝ) : ℝ := (f.velocity x y).2

end Flow

/-- The state a `UniformFlow.__init__` call (flows.py lines 159-185) leaves
behind.  `angle` is `none` when the attribute was never assigned: the invalid
angle-unit branch builds `Exception(...)` as a bare expression without
`raise`, so control falls through, `self.angle` stays unset, and construction
completes regardless. -/
structure UniformFlowObj : Type where
  freestream_velocity : ℝ
  angle : Option ℝ
  x_0 : ℝ
  y_0 : ℝ

/-- Embeds `UniformFlow.__init__` (flows.py lines 159-185): stores the freestream
speed, sets `angle` from the unit selector (`"rad"` keeps it, `"deg"`
converts), and on any other selector merely evaluates `Exception(...)` without
raising it, leaving `angle` unassigned; `BaseFlow.__init__` then fixes the
origin at `(0, 0)` and construction returns normally in every case. -/
def uniformFlowInit (freestream_velocity angle : ℝ)
    (angle_units : String) : UniformFlowObj :=
  if angle_units = "rad" then
    ⟨freestream_velocity, some angle, 0, 0⟩
  else if angle_units = "deg" then
    ⟨freestream_velocity, some (to_radians angle), 0, 0⟩
  else
    ⟨freestream_velocity, none, 0, 0⟩

/-- Modelled from the spec: `scipy.optimize.fsolve` is external library code.
The spec reads "Solve f(κ)=0 via a numerical root-finder (e.g.,
Newton/secant-style) starting from an initial guess of 1, with a configurable
tolerance on f"; the solver is modelled as returning an exact root of `g`
whenever one exists (every equation it is applied to in `add_cylinder` is
linear with an exact root) and the initial guess unchanged otherwise. -/
def fsolve (g : ℝ → ℝ) (x0 : ℝ) : ℝ :=
  if h : ∃ x, g x = 0 then Classical.choose h else x0

theorem fsolve_root {g : ℝ → ℝ} (h : ∃ x, g x = 0) (x0 : ℝ) :
    g (fsolve g x0) = 0 := by
  rw [fsolve, dif_pos h]
  exact Classical.choose_spec h

/-- The state of a `FlowField` (flow_field.py lines 17-57): the domain bounds
derived from `size` and `center`, the ordered list of primitives, and the
cylinder descriptor (`_has_cylinder`, `_cylinder_radius`, `_cylinder_x_0`,
`_cylinder_y_0`).  Plot-only attributes (`fig`, `ax`, `resolution`,
`arrow_length`, `equal_axis`) are omitted. -/
structure FlowField : Type where
  x_min : ℝ
  x_max : ℝ
  y_min : ℝ
  y_max : ℝ
  flows : List Flow
  has_cylinder : Bool
  cylinder_radius : ℝ
  cylinder_x_0 : ℝ
  cylinder_y_0 : ℝ

namespace FlowField

/-- Embeds `FlowField.__init__` (flow_field.py lines 17-57), restricted to the
attributes the claims touch: bounds `center ± size/2`, an empty primitive
list, `_has_cylinder = False`, `_cylinder_radius = -1`, cylinder center
`(0, 0)`. -/
def init (size center : ℝ × ℝ) : FlowField :=
  { x_min := center.1 - size.1 / 2
    x_max := center.1 + size.1 / 2
    y_min := center.2 - size.2 / 2
    y_max := center.2 + size.2 / 2
    flows := []
    has_cylinder := false
    cylinder_radius := -1
    cylinder_x_0 := 0
    cylinder_y_0 := 0 }

/-- Embeds `FlowField.add` (flow_field.py lines 59-66): appends a primitive. -/
def add (f : FlowField) (flow : Flow) : FlowField :=
  { f with flows := f.flows ++ [flow] }

/-- Embeds `FlowField._check_has_uniform_flow` (flow_field.py lines 432-447): loop
over `self.flows` keeping the most recent `UniformFlow` seen; raise
`Exception("Must define a Uniform Flow.")` only when none was found. -/
def check_has_uniform_flow (f : FlowField) : Except String Flow :=
  match f.flows.foldl
      (fun acc fl => if fl.isUniform then some fl else acc)
      (none : Option Flow) with
  | some uniform => Except.ok uniform
  | none => Except.error "Must define a Uniform Flow."

/-- Embeds `FlowField._is_inside_cylinder` (flow_field.py lines 449-462):
`sqrt((x−x₀)² + (y−y₀)²) < radius`. -/
def is_inside_cylinder (f : FlowField) (x y : ℝ) : Prop :=
  Real.sqrt ((x - f.cylinder_x_0) ^ 2 + (y - f.cylinder_y_0) ^ 2)
    < f.cylinder_radius

/-- Embeds `FlowField.add_cylinder` (flow_field.py lines 68-127).  In source order:
set the cylinder descriptor fields, then require a uniform flow (an exception
here leaves those fields mutated, carried in the error state), then solve
`doublet.velocity_x(x₀−r, y₀) + uniform.velocity_x(x₀−r, y₀) = 0` for the
doublet strength with `fsolve` from guess `1` and append the doublet; if an
angular velocity is supplied, also solve
`vortex.velocity_y(x₀−r, y₀) − 2π·ω·r = 0` and append the vortex. -/
def add_cylinder (f : FlowField) (radius x_0 y_0 : ℝ)
    (angular_velocity : Option ℝ) : Except (FlowField × String) FlowField :=
  let f1 : FlowField :=
    { f with
        cylinder_radius := radius
        has_cylinder := true
        cylinder_x_0 := x_0
        cylinder_y_0 := y_0 }
  match f1.check_has_uniform_flow with
  | Except.error msg => Except.error (f1, msg)
  | Except.ok uniform =>
    let doublet_strength : ℝ → ℝ := fun s =>
      (Flow.doublet x_0 y_0 s).velocity_x (x_0 - radius) y_0
        + uniform.velocity_x (x_0 - radius) y_0
    let f2 := f1.add (Flow.doublet x_0 y_0 (fsolve doublet_strength 1))
    match angular_velocity with
    | none => Except.ok f2
    | some omega =>
      let surface_velocity := 2 * Real.pi * omega * radius
      let vortex_strength : ℝ → ℝ := fun s =>
        (Flow.vortex x_0 y_0 s).velocity_y (x_0 - radius) y_0
          - surface_velocity
      Except.ok (f2.add (Flow.vortex x_0 y_0 (fsolve vortex_strength 1)))

/-- The superposed velocity at a point: the summation loop shared by
`_stream_line` (flow_field.py lines 418-423) and
`plot_pressure_coefficient_cylinder` (lines 305-309), with no body mask. -/
def velocity_sum (f : FlowField) (x y : ℝ) : ℝ × ℝ :=
  f.flows.foldl
    (fun acc fl =>
      (acc.1 + (fl.velocity x y).1, acc.2 + (fl.velocity x y).2))
    (0, 0)

/-- The loop guard of `_stream_line` (flow_field.py lines 413-416): the
current position lies within the domain bounds. -/
def in_bounds (f : FlowField) (x y : ℝ) : Prop :=
  f.y_min ≤ y ∧ y ≤ f.y_max ∧ f.x_min ≤ x ∧ x ≤ f.x_max

/-- Embeds `FlowField._stream_line` (flow_field.py lines 397-430) as the list of
visited positions, by recursion on the remaining iteration budget: starting
from the seed, while the last position is in bounds and iterations remain,
sum the raw primitive velocities there (no cylinder mask is applied) and
append the forward-Euler step `(x + u·dt, y + v·dt)`. -/
def stream_line (f : FlowField) (x y dt : ℝ) :
    (max_iterations : ℕ) → List (ℝ × ℝ)
  | 0 => [(x, y)]
  | n + 1 =>
    if f.in_bounds x y then
      (x, y) ::
        f.stream_line (x + (f.velocity_sum x y).1 * dt)
          (y + (f.velocity_sum x y).2 * dt) dt n
    else [(x, y)]

/-- The pressure-coefficient value `plot_pressure_coefficient_cylinder`
computes at sample angle `theta` (flow_field.py lines 295-312): the sample
point is `(r·cosθ − x₀, r·sinθ − y₀)` (the code subtracts the cylinder
center), the velocity is the raw superposed one, and
`Cp = 1 − (|V| / uniform.freestream_velocity)²`. -/
def cp_cylinder_point (f : FlowField) (uniform : Flow) (theta : ℝ) : ℝ :=
  let x := f.cylinder_radius * Real.cos theta - f.cylinder_x_0
  let y := f.cylinder_radius * Real.sin theta - f.cylinder_y_0
  let uv := f.velocity_sum x y
  1 - (Real.sqrt (uv.1 ^ 2 + uv.2 ^ 2) / uniform.freestream_velocity) ^ 2

/-- The superposed speed at a point, `sqrt(u² + v²)` of `velocity_sum`
(flow_field.py line 311). -/
def absolute_velocity_sum (f : FlowField) (x y : ℝ) : ℝ :=
  Real.sqrt ((f.velocity_sum x y).1 ^ 2 + (f.velocity_sum x y).2 ^ 2)

end FlowField

/-! ## Evaluation lemmas at the upstream stagnation point

`add_cylinder` probes every primitive at `(x₀ − r, y₀)`, which is
`(−r, 0)` in the body's local frame: radius `r`, angle `π`. -/

theorem arctan2_zero_neg {R : ℝ} (hR : 0 < R) : arctan2 0 (-R) = Real.pi :=
  Complex.arg_eq_pi_iff.mpr ⟨neg_lt_zero.mpr hR, rfl⟩

theorem to_polar_coordinates_upstream {R : ℝ} (hR : 0 < R) :
    to_polar_coordinates (-R) 0 = (R, Real.pi) := by
  have h1 : Real.sqrt ((-R) ^ 2 + 0 ^ 2) = R := by
    rw [show (-R) ^ 2 + 0 ^ 2 = R ^ 2 by ring]
    exact Real.sqrt_sq hR.le
  rw [to_polar_coordinates, h1, arctan2_zero_neg hR]

theorem not_is_center_upstream {x0 y0 R : ℝ} (hR : 0 < R) :
    ¬ (x0 - R = x0 ∧ y0 = y0) := by
  rintro ⟨h, -⟩
  linarith

/-- A doublet of strength `s` contributes x-velocity `s / R²` at the point a
distance `R` upstream of its center. -/
theorem doublet_velocity_x_upstream (x0 y0 R s : ℝ) (hR : 0 < R) :
    (Flow.doublet x0 y0 s).velocity_x (x0 - R) y0 = s / R ^ 2 := by
  have e1 : x0 - R - x0 = -R := by ring
  have e2 : y0 - y0 = (0 : ℝ) := by ring
  rw [Flow.velocity_x, Flow.velocity, if_neg (not_is_center_upstream hR),
    e1, e2, to_polar_coordinates_upstream hR]
  simp only [to_cartesian_velocity, Real.cos_pi, Real.sin_pi]
  ring

/-- A vortex of strength `s` contributes y-velocity `−s / (2πR)` at the point
a distance `R` upstream of its center. -/
theorem vortex_velocity_y_upstream (x0 y0 R s : ℝ) (hR : 0 < R) :
    (Flow.vortex x0 y0 s).velocity_y (x0 - R) y0 = -(s / (2 * Real.pi * R)) := by
  have e1 : x0 - R - x0 = -R := by ring
  have e2 : y0 - y0 = (0 : ℝ) := by ring
  rw [Flow.velocity_y, Flow.velocity, if_neg (not_is_center_upstream hR),
    e1, e2, to_polar_coordinates_upstream hR]
  simp only [to_cartesian_velocity, Real.cos_pi, Real.sin_pi]
  ring

theorem uniform_velocity_x (v α x y : ℝ) :
    (Flow.uniform v α).velocity_x x y = v * Real.cos α := rfl

/-- Claim C5: each singular primitive (vortex, source/sink, doublet), evaluated
at a point exactly equal to its own origin, returns the zero sentinel from
`stream_function` and `potential_function` and `(0, 0)` from `velocity`; and
at every other point the polar radius the singular expressions divide by (or
take the logarithm of) is nonzero, so the `r = 0` expressions are never
evaluated. -/
theorem singular_flows_zero_sentinel_at_origin (x0 y0 s : ℝ) :
    ((Flow.vortex x0 y0 s).stream_function x0 y0 = 0
      ∧ (Flow.vortex x0 y0 s).potential_function x0 y0 = 0
      ∧ (Flow.vortex x0 y0 s).velocity x0 y0 = (0, 0))
    ∧ ((Flow.sourceSink x0 y0 s).stream_function x0 y0 = 0
      ∧ (Flow.sourceSink x0 y0 s).potential_function x0 y0 = 0
      ∧ (Flow.sourceSink x0 y0 s).velocity x0 y0 = (0, 0))
    ∧ ((Flow.doublet x0 y0 s).stream_function x0 y0 = 0
      ∧ (Flow.doublet x0 y0 s).potential_function x0 y0 = 0
      ∧ (Flow.doublet x0 y0 s).velocity x0 y0 = (0, 0))
    ∧ (∀ x y : ℝ, ¬ (x = x0 ∧ y = y0) →
        (to_polar_coordinates (x - x0) (y - y0)).1 ≠ 0) := by
  refine ⟨?_, ?_, ?_, ?_⟩
  · exact ⟨by simp [Flow.stream_function], by simp [Flow.potential_function],
      by simp [Flow.velocity]⟩
  · exact ⟨by simp [Flow.stream_function], by simp [Flow.potential_function],
      by simp [Flow.velocity]⟩
  · exact ⟨by simp [Flow.stream_function], by simp [Flow.potential_function],
      by simp [Flow.velocity]⟩
  · intro x y hxy hzero
    rw [to_polar_coordinates] at hzero
    have h2 : (x - x0) ^ 2 + (y - y0) ^ 2 ≤ 0 := Real.sqrt_eq_zero'.mp hzero
    have hx : x = x0 := by nlinarith [sq_nonneg (x - x0), sq_nonneg (y - y0)]
    have hy : y = y0 := by nlinarith [sq_nonneg (x - x0), sq_nonneg (y - y0)]
    exact hxy ⟨hx, hy⟩

/-! ## The boundary-condition solver `add_cylinder` -/

/-- The flow field built by `main.py` before `add_cylinder`:
`FlowField(size=(50, 25))` with `UniformFlow(10)` added (angle `0` degrees,
i.e. `0` radians). -/
def mainField : FlowField :=
  (FlowField.init (50, 25) (0, 0)).add (Flow.uniform 10 0)

/-- Unfolding of `add_cylinder` without an angular velocity, once a uniform
flow is present: exactly one doublet, with the `fsolve`-calibrated strength,
is appended after the cylinder descriptor fields are set. -/
theorem add_cylinder_none_eq (f : FlowField) (R x0 y0 : ℝ) (u : Flow)
    (hu : f.check_has_uniform_flow = Except.ok u) :
    f.add_cylinder R x0 y0 none = Except.ok
      { f with
          cylinder_radius := R
          has_cylinder := true
          cylinder_x_0 := x0
          cylinder_y_0 := y0
          flows := f.flows ++ [Flow.doublet x0 y0
            (fsolve (fun s =>
              (Flow.doublet x0 y0 s).velocity_x (x0 - R) y0
                + u.velocity_x (x0 - R) y0) 1)] } := by
  have hu' : FlowField.check_has_uniform_flow
      { f with
          cylinder_radius := R
          has_cylinder := true
          cylinder_x_0 := x0
          cylinder_y_0 := y0 } = Except.ok u := hu
  unfold FlowField.add_cylinder
  simp only [hu', FlowField.add]

/-- Unfolding of `add_cylinder` with an angular velocity, once a uniform flow
is present: the calibrated doublet and then the calibrated vortex are
appended. -/
theorem add_cylinder_some_eq (f : FlowField) (R x0 y0 omega : ℝ) (u : Flow)
    (hu : f.check_has_uniform_flow = Except.ok u) :
    f.add_cylinder R x0 y0 (some omega) = Except.ok
      { f with
          cylinder_radius := R
          has_cylinder := true
          cylinder_x_0 := x0
          cylinder_y_0 := y0
          flows := f.flows
            ++ [Flow.doublet x0 y0
                  (fsolve (fun s =>
                    (Flow.doublet x0 y0 s).velocity_x (x0 - R) y0
                      + u.velocity_x (x0 - R) y0) 1),
                Flow.vortex x0 y0
                  (fsolve (fun s =>
                    (Flow.vortex x0 y0 s).velocity_y (x0 - R) y0
                      - 2 * Real.pi * omega * R) 1)] } := by
  have hu' : FlowField.check_has_uniform_flow
      { f with
          cylinder_radius := R
          has_cylinder := true
          cylinder_x_0 := x0
          cylinder_y_0 := y0 } = Except.ok u := hu
  unfold FlowField.add_cylinder
  simp only [hu', FlowField.add, List.append_assoc]
  rfl

/-- Claim C1: on a field whose uniform-flow lookup succeeds, `add_cylinder`
with `angular_velocity = None` appends exactly one doublet, and its strength
makes the combined x-velocity of that doublet and the looked-up uniform flow
vanish exactly (hence within any solver tolerance) at the upstream stagnation
point `(x₀ − R, y₀)`. -/
theorem add_cylinder_doublet_stagnation (f : FlowField) (R x0 y0 : ℝ)
    (u : Flow) (hu : f.check_has_uniform_flow = Except.ok u) (hR : 0 < R) :
    ∃ s : ℝ,
      f.add_cylinder R x0 y0 none = Except.ok
        { f with
            cylinder_radius := R
            has_cylinder := true
            cylinder_x_0 := x0
            cylinder_y_0 := y0
            flows := f.flows ++ [Flow.doublet x0 y0 s] }
      ∧ (Flow.doublet x0 y0 s).velocity_x (x0 - R) y0
          + u.velocity_x (x0 - R) y0 = 0 := by
  have hR0 : R ≠ 0 := ne_of_gt hR
  have hroot : ∃ t : ℝ,
      (Flow.doublet x0 y0 t).velocity_x (x0 - R) y0
        + u.velocity_x (x0 - R) y0 = 0 := by
    refine ⟨-(u.velocity_x (x0 - R) y0) * R ^ 2, ?_⟩
    rw [doublet_velocity_x_upstream x0 y0 R _ hR]
    field_simp
  exact ⟨_, add_cylinder_none_eq f R x0 y0 u hu, fsolve_root hroot 1⟩

/-- Witness for claim C1: the `main.py` field (`UniformFlow(10)` in a
`FlowField(size=(50, 25))`) with `add_cylinder(5)`. -/
theorem add_cylinder_doublet_stagnation_witness :
    mainField.check_has_uniform_flow = Except.ok (Flow.uniform 10 0)
    ∧ (0 : ℝ) < 5
    ∧ ∃ s : ℝ,
        mainField.add_cylinder 5 0 0 none = Except.ok
          { mainField with
              cylinder_radius := 5
              has_cylinder := true
              cylinder_x_0 := 0
              cylinder_y_0 := 0
              flows := mainField.flows ++ [Flow.doublet 0 0 s] }
        ∧ (Flow.doublet 0 0 s).velocity_x (0 - 5) 0
            + (Flow.uniform 10 0).velocity_x (0 - 5) 0 = 0 :=
  ⟨rfl, by norm_num,
    add_cylinder_doublet_stagnation mainField 5 0 0 (Flow.uniform 10 0) rfl
      (by norm_num)⟩

/-- Claim C2: on a field whose uniform-flow lookup succeeds, `add_cylinder`
with a rotation rate `ω` appends exactly one vortex (after the doublet), and
its strength makes the vortex's tangential (y-direction) velocity at the
upstream surface point `(x₀ − R, y₀)` equal `2π·ω·R` exactly (hence within
any solver tolerance). -/
theorem add_cylinder_vortex_surface_speed (f : FlowField) (R x0 y0 omega : ℝ)
    (u : Flow) (hu : f.check_has_uniform_flow = Except.ok u) (hR : 0 < R) :
    ∃ sd sv : ℝ,
      f.add_cylinder R x0 y0 (some omega) = Except.ok
        { f with
            cylinder_radius := R
            has_cylinder := true
            cylinder_x_0 := x0
            cylinder_y_0 := y0
            flows := f.flows
              ++ [Flow.doublet x0 y0 sd, Flow.vortex x0 y0 sv] }
      ∧ (Flow.vortex x0 y0 sv).velocity_y (x0 - R) y0
          = 2 * Real.pi * omega * R := by
  have hR0 : R ≠ 0 := ne_of_gt hR
  have hroot : ∃ t : ℝ,
      (Flow.vortex x0 y0 t).velocity_y (x0 - R) y0
        - 2 * Real.pi * omega * R = 0 := by
    refine ⟨-(2 * Real.pi * omega * R) * (2 * Real.pi * R), ?_⟩
    rw [vortex_velocity_y_upstream x0 y0 R _ hR]
    have hpi : Real.pi ≠ 0 := Real.pi_ne_zero
    field_simp
  refine ⟨_, _, add_cylinder_some_eq f R x0 y0 omega u hu, ?_⟩
  have h0 := fsolve_root hroot 1
  exact sub_eq_zero.mp h0

/-- Witness for claim C2: the `main.py` field with
`add_cylinder(5, angular_velocity=0.35)`. -/
theorem add_cylinder_vortex_surface_speed_witness :
    mainField.check_has_uniform_flow = Except.ok (Flow.uniform 10 0)
    ∧ (0 : ℝ) < 5
    ∧ ∃ sd sv : ℝ,
        mainField.add_cylinder 5 0 0 (some (35 / 100)) = Except.ok
          { mainField with
              cylinder_radius := 5
              has_cylinder := true
              cylinder_x_0 := 0
              cylinder_y_0 := 0
              flows := mainField.flows
                ++ [Flow.doublet 0 0 sd, Flow.vortex 0 0 sv] }
        ∧ (Flow.vortex 0 0 sv).velocity_y (0 - 5) 0
            = 2 * Real.pi * (35 / 100) * 5 :=
  ⟨rfl, by norm_num,
    add_cylinder_vortex_surface_speed mainField 5 0 0 (35 / 100)
      (Flow.uniform 10 0) rfl (by norm_num)⟩

/-- Claim C3, amended: `add_cylinder` on a field with no uniform flow raises the
configuration error and leaves the primitive collection unchanged, but the
registered-body flag, radius and center are assigned *before* the check and
remain mutated in the failed state. -/
theorem add_cylinder_failure_keeps_flows (f : FlowField) (R x0 y0 : ℝ)
    (omega : Option ℝ) (msg : String)
    (h : f.check_has_uniform_flow = Except.error msg) :
    f.add_cylinder R x0 y0 omega = Except.error
      ({ f with
          cylinder_radius := R
          has_cylinder := true
          cylinder_x_0 := x0
          cylinder_y_0 := y0 }, msg)
    ∧ ({ f with
          cylinder_radius := R
          has_cylinder := true
          cylinder_x_0 := x0
          cylinder_y_0 := y0 } : FlowField).flows = f.flows := by
  have h' : FlowField.check_has_uniform_flow
      { f with
          cylinder_radius := R
          has_cylinder := true
          cylinder_x_0 := x0
          cylinder_y_0 := y0 } = Except.error msg := h
  refine ⟨?_, rfl⟩
  unfold FlowField.add_cylinder
  simp only [h']

/-- Witness for claim C3 as amended: an empty `FlowField(size=(2, 2))`. -/
theorem add_cylinder_failure_keeps_flows_witness :
    (FlowField.init (2, 2) (0, 0)).check_has_uniform_flow
      = Except.error "Must define a Uniform Flow."
    ∧ (FlowField.init (2, 2) (0, 0)).add_cylinder 2 1 1 none = Except.error
        ({ FlowField.init (2, 2) (0, 0) with
            cylinder_radius := 2
            has_cylinder := true
            cylinder_x_0 := 1
            cylinder_y_0 := 1 }, "Must define a Uniform Flow.")
    ∧ ({ FlowField.init (2, 2) (0, 0) with
          cylinder_radius := 2
          has_cylinder := true
          cylinder_x_0 := 1
          cylinder_y_0 := 1 } : FlowField).flows
        = (FlowField.init (2, 2) (0, 0)).flows :=
  ⟨rfl,
    (add_cylinder_failure_keeps_flows (FlowField.init (2, 2) (0, 0)) 2 1 1
      none "Must define a Uniform Flow." rfl).1,
    (add_cylinder_failure_keeps_flows (FlowField.init (2, 2) (0, 0)) 2 1 1
      none "Must define a Uniform Flow." rfl).2⟩

/-- Counterexample to claim C3 as stated: after the failed
`add_cylinder(2, 1, 1)` on an empty field, the registered-body flag is `true`
and the radius and center are `2, (1, 1)`, even though the field started with
flag `false` and radius `-1` — the failed call does not leave the flow field
entirely unchanged. -/
theorem add_cylinder_failure_mutates_descriptor_counterexample :
    (FlowField.init (2, 2) (0, 0)).add_cylinder 2 1 1 none = Except.error
      ({ FlowField.init (2, 2) (0, 0) with
          cylinder_radius := 2
          has_cylinder := true
          cylinder_x_0 := 1
          cylinder_y_0 := 1 }, "Must define a Uniform Flow.")
    ∧ (FlowField.init (2, 2) (0, 0)).has_cylinder = false
    ∧ (FlowField.init (2, 2) (0, 0)).cylinder_radius = -1 := by
  refine ⟨rfl, rfl, rfl⟩

/-- Witness for claim C5 at the concrete vortex `Vortex(1, 2, 3)` and the
off-center probe point `(3, 2)`. -/
theorem singular_flows_zero_sentinel_at_origin_witness :
    (Flow.vortex 1 2 3).stream_function 1 2 = 0
    ∧ ¬ ((3 : ℝ) = 1 ∧ (2 : ℝ) = 2)
    ∧ (to_polar_coordinates ((3 : ℝ) - 1) ((2 : ℝ) - 2)).1 ≠ 0 := by
  have h := singular_flows_zero_sentinel_at_origin 1 2 3
  have hne : ¬ ((3 : ℝ) = 1 ∧ (2 : ℝ) = 2) := by
    rintro ⟨h3, -⟩
    norm_num at h3
  exact ⟨h.1.1, hne, h.2.2.2 3 2 hne⟩

/-! ## The uniform-flow lookup `_check_has_uniform_flow` -/

/-- The loop of `_check_has_uniform_flow` keeps the *last* element satisfying
the predicate: folding `if p x then some x else acc` over a list equals the
last filtered element, with the initial accumulator as fallback. -/
theorem foldl_keep_last_filter {α : Type} (p : α → Bool) (l : List α)
    (a : Option α) :
    l.foldl (fun acc x => if p x then some x else acc) a
      = ((l.filter p).getLast?).or a := by
  induction l using List.reverseRecOn generalizing a with
  | nil => rfl
  | append_singleton l x ih =>
    rw [List.foldl_append, List.filter_append, ih]
    cases hpx : p x with
    | true =>
      simp [hpx, List.getLast?_concat]
    | false =>
      simp [hpx]

/-- Claim C8, amended: `_check_has_uniform_flow` returns the *most recently
added* `UniformFlow` whenever at least one is present — in particular the
single one when the field has exactly one — and raises the configuration
error only when the field contains none; with more than one `UniformFlow` it
does *not* fail, it silently returns the last. -/
theorem require_uniform_flow_returns_last (f : FlowField) :
    f.check_has_uniform_flow =
      match (f.flows.filter Flow.isUniform).getLast? with
      | some uniform => Except.ok uniform
      | none => Except.error "Must define a Uniform Flow." := by
  rw [FlowField.check_has_uniform_flow, foldl_keep_last_filter]
  cases h : (f.flows.filter Flow.isUniform).getLast? <;> simp [h, Option.or]

/-- A field holding two `UniformFlow` primitives, `UniformFlow(1)` then
`UniformFlow(2)`. -/
def twoUniformField : FlowField :=
  ((FlowField.init (4, 4) (0, 0)).add (Flow.uniform 1 0)).add (Flow.uniform 2 0)

/-- Counterexample to claim C8 as stated: a field containing two
`UniformFlow` primitives does not make `_check_has_uniform_flow` fail — it
returns the second one. -/
theorem two_uniform_flows_no_error_counterexample :
    (twoUniformField.flows.filter Flow.isUniform).length = 2
    ∧ twoUniformField.check_has_uniform_flow = Except.ok (Flow.uniform 2 0) :=
  ⟨rfl, rfl⟩

/-! ## The streamline integrator `_stream_line` -/

/-- Claim C7: every trace starts with the seed; a seed outside the domain
bounds yields exactly the one-element trace `[seed]`; and a zero iteration
cap yields exactly one point. -/
theorem stream_line_seed (f : FlowField) (x y dt : ℝ) (n : ℕ) :
    (f.stream_line x y dt n).head? = some (x, y)
    ∧ (¬ f.in_bounds x y → f.stream_line x y dt n = [(x, y)])
    ∧ f.stream_line x y dt 0 = [(x, y)] := by
  refine ⟨?_, ?_, rfl⟩
  · cases n with
    | zero => rfl
    | succ m =>
      simp only [FlowField.stream_line]
      split <;> rfl
  · intro h
    cases n with
    | zero => rfl
    | succ m =>
      simp only [FlowField.stream_line]
      rw [if_neg h]

/-- Witness for claim C7: a seed `(5, 0)` outside the `[-1, 1]²` domain of
`FlowField(size=(2, 2))` produces exactly the one-point trace. -/
theorem stream_line_seed_witness :
    ¬ (FlowField.init (2, 2) (0, 0)).in_bounds 5 0
    ∧ (FlowField.init (2, 2) (0, 0)).stream_line 5 0 (1 / 10) 3 = [(5, 0)] := by
  have h : ¬ (FlowField.init (2, 2) (0, 0)).in_bounds 5 0 := by
    rw [FlowField.in_bounds]
    push_neg
    intro h1 h2 h3
    norm_num [FlowField.init]
  exact ⟨h, (stream_line_seed (FlowField.init (2, 2) (0, 0)) 5 0 (1 / 10) 3).2.1 h⟩

/-- Claim C10: a trace with iteration cap `n` holds at most `n + 1` points,
every point except possibly the last lies within the domain bounds (so when
the trace ends by leaving the domain, its last point is the first
out-of-bounds position), and the trace is never empty (the exit point is
included). -/
theorem stream_line_invariants (f : FlowField) (x y dt : ℝ) (n : ℕ) :
    (f.stream_line x y dt n).length ≤ n + 1
    ∧ (∀ p ∈ (f.stream_line x y dt n).dropLast, f.in_bounds p.1 p.2)
    ∧ f.stream_line x y dt n ≠ [] := by
  induction n generalizing x y with
  | zero =>
    exact ⟨by simp [FlowField.stream_line], by simp [FlowField.stream_line],
      by simp [FlowField.stream_line]⟩
  | succ m ih =>
    by_cases h : f.in_bounds x y
    · obtain ⟨ih1, ih2, ih3⟩ :=
        ih (x + (f.velocity_sum x y).1 * dt) (y + (f.velocity_sum x y).2 * dt)
      simp only [FlowField.stream_line]
      obtain ⟨r0, rest, hr⟩ := List.exists_cons_of_ne_nil ih3
      rw [if_pos h, hr]
      rw [hr] at ih1 ih2
      refine ⟨?_, ?_, by simp⟩
      · simp only [List.length_cons] at ih1 ⊢
        omega
      · intro q hq
        rw [List.dropLast_cons₂] at hq
        rcases List.mem_cons.mp hq with heq | hq'
        · rw [heq]
          exact h
        · exact ih2 q hq'
    · simp only [FlowField.stream_line]
      rw [if_neg h]
      refine ⟨by simp, by simp, by simp⟩

/-- Witness for claim C10 on the empty `FlowField(size=(2, 2))` with cap 2. -/
theorem stream_line_invariants_witness :
    ((FlowField.init (2, 2) (0, 0)).stream_line 0 0 1 2).length ≤ 2 + 1 :=
  (stream_line_invariants (FlowField.init (2, 2) (0, 0)) 0 0 1 2).1

/-- Claim C6, amended: at each streamline step the position is advanced by
forward Euler using the *raw* superposed flow-field velocity: no body mask is
applied, so a position strictly inside a registered body is advanced by the
unmasked superposed velocity and may move. -/
theorem stream_line_step_unmasked (f : FlowField) (x y dt : ℝ) (n : ℕ)
    (h : f.in_bounds x y) :
    f.stream_line x y dt (n + 1) =
      (x, y) :: f.stream_line (x + (f.velocity_sum x y).1 * dt)
        (y + (f.velocity_sum x y).2 * dt) dt n := by
  simp only [FlowField.stream_line]
  rw [if_pos h]

/-- Witness for claim C6 as amended at the in-bounds point `(1, 1)` of the
`main.py` field. -/
theorem stream_line_step_unmasked_witness :
    mainField.in_bounds 1 1
    ∧ mainField.stream_line 1 1 (1 / 2) (0 + 1) =
        (1, 1) :: mainField.stream_line
          (1 + (mainField.velocity_sum 1 1).1 * (1 / 2))
          (1 + (mainField.velocity_sum 1 1).2 * (1 / 2)) (1 / 2) 0 := by
  have h : mainField.in_bounds 1 1 := by
    norm_num [FlowField.in_bounds, mainField, FlowField.add, FlowField.init]
  exact ⟨h, stream_line_step_unmasked mainField 1 1 (1 / 2) 0 h⟩

/-- The doublet strength `add_cylinder(5)` computes for the `main.py`
field. -/
def c6_kappa : ℝ :=
  fsolve (fun s =>
    (Flow.doublet 0 0 s).velocity_x (0 - 5) 0
      + (Flow.uniform 10 0).velocity_x (0 - 5) 0) 1

/-- The `main.py` field after `add_cylinder(5)`: cylinder of radius 5 at the
origin, flows `[UniformFlow(10), Doublet(0, 0, κ)]`. -/
def c6_field : FlowField :=
  { mainField with
      cylinder_radius := 5
      has_cylinder := true
      cylinder_x_0 := 0
      cylinder_y_0 := 0
      flows := mainField.flows ++ [Flow.doublet 0 0 c6_kappa] }

/-- Counterexample to claim C6 as stated: in the `main.py` field with its
registered cylinder of radius 5, the point `(0, 0)` is strictly inside the
body, yet the streamline sampler returns the unmasked superposed velocity
`(10, 0)` there (the doublet contributes its zero sentinel at its own
center, the uniform flow its full `(10, 0)`), and a streamline seeded there
moves to `(10, 0)` instead of staying put. -/
theorem stream_line_ignores_body_mask_counterexample :
    mainField.add_cylinder 5 0 0 none = Except.ok c6_field
    ∧ c6_field.has_cylinder = true
    ∧ c6_field.is_inside_cylinder 0 0
    ∧ c6_field.velocity_sum 0 0 = (10, 0)
    ∧ c6_field.stream_line 0 0 1 1 = [(0, 0), (10, 0)] := by
  have hv : c6_field.velocity_sum 0 0 = (10, 0) := by
    simp [c6_field, mainField, FlowField.velocity_sum, FlowField.add,
      FlowField.init, Flow.velocity]
  have hb : c6_field.in_bounds 0 0 := by
    norm_num [FlowField.in_bounds, c6_field, mainField, FlowField.add,
      FlowField.init]
  refine ⟨add_cylinder_none_eq mainField 5 0 0 (Flow.uniform 10 0) rfl,
    rfl, ?_, hv, ?_⟩
  · rw [FlowField.is_inside_cylinder]
    norm_num [c6_field, mainField, FlowField.add, FlowField.init]
  · have e1 : c6_field.stream_line 0 0 1 1 =
        (0, 0) :: c6_field.stream_line (0 + (c6_field.velocity_sum 0 0).1 * 1)
          (0 + (c6_field.velocity_sum 0 0).2 * 1) 1 0 := by
      rw [show (1 : ℕ) = 0 + 1 from rfl]
      simp only [FlowField.stream_line]
      rw [if_pos hb]
    rw [e1, hv]
    norm_num [FlowField.stream_line]

/-! ## The pressure-coefficient evaluator -/

/-- Claim C4, cylinder-surface path: the value
`plot_pressure_coefficient_cylinder` computes at each sample angle is
`1 − (|V| / V∞)²`, with `|V|` the superposed speed at its sample point and
`V∞` the `freestream_velocity` of the uniform flow returned by the lookup.
(The whole-field `plot_pressure_coefficient` instead divides by the
`UniformFlow` object itself — see the results record.) -/
theorem cp_cylinder_matches_formula (f : FlowField) (uniform : Flow)
    (theta : ℝ) :
    f.cp_cylinder_point uniform theta =
      1 - (f.absolute_velocity_sum
            (f.cylinder_radius * Real.cos theta - f.cylinder_x_0)
            (f.cylinder_radius * Real.sin theta - f.cylinder_y_0)
          / uniform.freestream_velocity) ^ 2 := rfl

/-! ## UniformFlow construction with an invalid angle-unit selector -/

/-- Claim C9: constructing `UniformFlow(1, 0, "grad")` does *not* fail fast:
the invalid-unit branch evaluates `Exception(...)` without `raise`, so
construction completes and yields an object whose `angle` attribute was never
assigned. -/
theorem uniform_flow_invalid_units_constructs :
    uniformFlowInit 1 0 "grad"
      = { freestream_velocity := 1, angle := none, x_0 := 0, y_0 := 0 } := by
  rw [uniformFlowInit, if_neg (by decide), if_neg (by decide)]

end Aerodynamics
